import Mathlib

/-!
Shallow embedding of the travel-reimbursement calculator in `src/main.py`
(the active, uncommented function `calculate_reimbursement`, lines 98-151,
together with its module-level constants).

Modelling choices:
* Python real arithmetic is embedded as exact rational arithmetic (`ℚ`);
  `days` is an integer (`ℤ`), `miles` and `receipts` are rationals.
* `round(x, 2)` is Python's round-half-to-even on the idealised value,
  embedded as `round2` below.
* The `math.inf` threshold of the second mileage tier is modelled as
  `Option ℚ` with `none` standing for infinity (`min r inf = r`).
* Python's `hash` of the f-string built from the three inputs is, within a
  single process, a pure function of the three inputs.  It is embedded as
  an abstract parameter `inputHash : ℤ → ℚ → ℚ → ℤ` standing for the
  composition of the f-string formatting with the process's string hash.
  No claim depends on its concrete values, only on `% 1000` arithmetic.
* The active function performs no input validation.  The only fallible
  operation is the division `mpd = miles / days`, which raises Python's
  `ZeroDivisionError` when `days = 0`; the result type is therefore
  `Except PyErr ℚ`.  The division inside the anti-vacation guard is
  protected by Python's short-circuit `and` (it only runs when
  `days >= 7`), and `daily_spend` carries an explicit `if days > 0` guard
  in the source.
-/

/-- Python `ZeroDivisionError`, the only runtime failure the active code
can raise. -/
inductive PyErr where
  | zeroDivisionError
deriving DecidableEq, Repr

/-- `BASE_PER_DIEM = 93.45` (src/main.py line 100). -/
def BASE_PER_DIEM : ℚ := 93.45

/-- `EFFICIENCY_BONUS = 1.22` (src/main.py line 102). -/
def EFFICIENCY_BONUS : ℚ := 1.22

/-- `ROUNDING_BUG_BONUS = 0.11` (src/main.py line 103). -/
def ROUNDING_BUG_BONUS : ℚ := 0.11

/-- `MILEAGE_RATES = [(150, 0.55), (math.inf, 0.42)]` (src/main.py line 101);
`none` models `math.inf`. -/
def MILEAGE_RATES : List (Option ℚ × ℚ) := [(some 150, 0.55), (none, 0.42)]

/-- `min(remaining, threshold)` where the threshold may be `math.inf`. -/
def tierMin (remaining : ℚ) (threshold : Option ℚ) : ℚ :=
  match threshold with
  | some t => min remaining t
  | none => remaining

/-- The `for threshold, rate in MILEAGE_RATES` loop of src/main.py
lines 117-122, as structural recursion over the rate list, carrying the
`remaining` and `mileage` accumulator variables. -/
def mileageLoop : List (Option ℚ × ℚ) → ℚ → ℚ → ℚ
  | [], _, mileage => mileage
  | (threshold, rate) :: rest, remaining, mileage =>
    if remaining ≤ 0 then mileage
    else
      mileageLoop rest (remaining - tierMin remaining threshold)
        (mileage + tierMin remaining threshold * rate)

/-- The mileage component: the loop of src/main.py lines 115-122 started
from `remaining = miles`, `mileage = 0`. -/
def mileageOf (miles : ℚ) : ℚ :=
  mileageLoop MILEAGE_RATES miles 0

/-- Per-diem component (src/main.py lines 110-112): `BASE_PER_DIEM * days`,
times `1.17` when `days == 5`. -/
def perDiemOf (days : ℤ) : ℚ :=
  let p := BASE_PER_DIEM * days
  if days = 5 then p * 1.17 else p

/-- `daily_spend = receipts/days if days > 0 else 0` (src/main.py
line 125). -/
def dailySpendOf (days : ℤ) (receipts : ℚ) : ℚ :=
  if 0 < days then receipts / (days : ℚ) else 0

/-- Receipt-processing multiplier (src/main.py lines 125-131). -/
def spendMultOf (days : ℤ) (receipts : ℚ) : ℚ :=
  let ds := dailySpendOf days receipts
  if 75 ≤ ds ∧ ds ≤ 115 then 1.12
  else if ds < 40 then 0.88
  else 1.0

/-- Efficiency multiplier (src/main.py line 135): `EFFICIENCY_BONUS` when
`180 <= mpd <= 220`, else 1. -/
def effMultOf (mpd : ℚ) : ℚ :=
  if 180 ≤ mpd ∧ mpd ≤ 220 then EFFICIENCY_BONUS else 1.0

/-- The combined base (src/main.py line 138):
`(per_diem + mileage) * spend_mult * efficiency`, with
`mpd = miles / days`.  Only meaningful when `days ≠ 0`. -/
def baseOf (days : ℤ) (miles receipts : ℚ) : ℚ :=
  (perDiemOf days + mileageOf miles) * spendMultOf days receipts
    * effMultOf (miles / (days : ℚ))

/-- `rand_seed = hash(...) % 1000 / 1000` (src/main.py line 141), as a
function of the integer hash value; Python `%` on a positive modulus and
Lean `Int.emod` agree. -/
def randSeedOf (h : ℤ) : ℚ :=
  ((h % 1000 : ℤ) : ℚ) / 1000

/-- `randomization = 0.88 + (rand_seed * 0.08)` (src/main.py line 142). -/
def randomizationOf (h : ℤ) : ℚ :=
  0.88 + randSeedOf h * 0.08

/-- The rounding-bug correction (src/main.py lines 147-149): add
`ROUNDING_BUG_BONUS` when the fractional part of `final` is strictly
within 0.01 of 0.49 or of 0.99. -/
def quirkAdjust (final : ℚ) : ℚ :=
  let cents := final - (⌊final⌋ : ℚ)
  if |cents - 0.49| < 0.01 ∨ |cents - 0.99| < 0.01 then
    final + ROUNDING_BUG_BONUS
  else final

/-- Round-half-to-even to an integer, Python's `round` convention on the
idealised rational value. -/
def roundHalfEven (x : ℚ) : ℤ :=
  let f := ⌊x⌋
  let frac := x - (f : ℚ)
  if frac < 1/2 then f
  else if 1/2 < frac then f + 1
  else if f % 2 = 0 then f else f + 1

/-- Python `round(x, 2)` on the idealised value. -/
def round2 (x : ℚ) : ℚ :=
  (roundHalfEven (x * 100) : ℚ) / 100

/-- The active `calculate_reimbursement` of src/main.py lines 98-151.
`inputHash` abstracts `fun d m r => hash(f-string of d, m, r)`, a pure
function of the inputs within one Python process. -/
def calculate_reimbursement (inputHash : ℤ → ℚ → ℚ → ℤ) (days : ℤ)
    (miles receipts : ℚ) : Except PyErr ℚ :=
  -- Anti-vacation penalty (line 106); `miles/days` is guarded by the
  -- short-circuit `days >= 7`, so no division error can arise here.
  if 7 ≤ days ∧ miles / (days : ℚ) < 50 then
    Except.ok (round2 (0.85 * (BASE_PER_DIEM * days)))
  else
    -- `mpd = miles/days` (line 134) raises ZeroDivisionError at days = 0;
    -- everything computed before that line is total.
    if days = 0 then Except.error PyErr.zeroDivisionError
    else
      let base := baseOf days miles receipts
      let randomization := randomizationOf (inputHash days miles receipts)
      let final := base * randomization
      Except.ok (round2 (quirkAdjust final))

/-! ### Helper lemmas -/

/-- Closed form of the tiered-mileage loop for nonnegative miles. -/
theorem mileage_closed (m : ℚ) (h : 0 ≤ m) :
    mileageOf m = 0.55 * min m 150 + 0.42 * max (m - 150) 0 := by
  simp only [mileageOf, MILEAGE_RATES, mileageLoop, tierMin]
  rcases eq_or_lt_of_le h with h0 | h0
  · rw [if_pos (by linarith)]
    rw [min_eq_left (by linarith), max_eq_right (by linarith)]
    linarith
  · rw [if_neg (by linarith)]
    rcases le_or_lt m 150 with h1 | h1
    · rw [min_eq_left h1]
      rw [if_pos (by linarith)]
      rw [max_eq_right (by linarith)]
      ring
    · rw [min_eq_right (by linarith)]
      rw [if_neg (by linarith)]
      rw [max_eq_left (by linarith)]
      ring

/-- Unfolding of the main path (anti-vacation guard false, `days ≠ 0`). -/
theorem calc_unfold (inputHash : ℤ → ℚ → ℚ → ℤ) (days : ℤ) (miles receipts : ℚ)
    (hsc : ¬(7 ≤ days ∧ miles / (days : ℚ) < 50)) (hz : days ≠ 0) :
    calculate_reimbursement inputHash days miles receipts
      = Except.ok (round2 (quirkAdjust
          (baseOf days miles receipts
            * randomizationOf (inputHash days miles receipts)))) := by
  unfold calculate_reimbursement
  rw [if_neg hsc, if_neg hz]

/-- Unfolding of the anti-vacation short-circuit path. -/
theorem calc_shortcircuit (inputHash : ℤ → ℚ → ℚ → ℤ) (days : ℤ)
    (miles receipts : ℚ)
    (h7 : 7 ≤ days) (hm : miles / (days : ℚ) < 50) :
    calculate_reimbursement inputHash days miles receipts
      = Except.ok (round2 (0.85 * (BASE_PER_DIEM * days))) := by
  unfold calculate_reimbursement
  rw [if_pos ⟨h7, hm⟩]

/-- The seed `hash % 1000 / 1000` lies in `[0, 1)`. -/
theorem randSeed_bounds (h : ℤ) : 0 ≤ randSeedOf h ∧ randSeedOf h < 1 := by
  unfold randSeedOf
  have h0 : (0 : ℤ) ≤ h % 1000 := Int.emod_nonneg h (by norm_num)
  have h1 : h % 1000 < 1000 := Int.emod_lt_of_pos h (by norm_num)
  constructor
  · apply div_nonneg _ (by norm_num)
    exact_mod_cast h0
  · rw [div_lt_one (by norm_num)]
    exact_mod_cast h1

/-- Concrete value of the short-circuit output at 7 days. -/
theorem round2_556 : round2 (0.85 * (BASE_PER_DIEM * ((7:ℤ) : ℚ))) = 556.03 := by
  have h : (0.85 : ℚ) * (BASE_PER_DIEM * ((7:ℤ) : ℚ)) = 556.0275 := by
    norm_num [BASE_PER_DIEM]
  rw [h]
  unfold round2 roundHalfEven
  norm_num

/-- Claim C1: the spec asserts that inputs with `days < 1`, `miles < 0` or
`receipts < 0` fail with an `InvalidArgument` error.  The active code has
no validation: at the invalid input `days = -1, miles = 0, receipts = 0`
(whatever the hash function) the call succeeds and returns a number. -/
theorem claim_C1_no_input_validation (inputHash : ℤ → ℚ → ℚ → ℤ) :
    ∃ v, calculate_reimbursement inputHash (-1) 0 0 = Except.ok v := by
  refine ⟨_, calc_unfold inputHash (-1) 0 0 ?_ (by norm_num)⟩
  rintro ⟨h7, -⟩
  omega

/-- Claim C2: if `days ≥ 7` and `miles/days < 50`, the result is
`round(0.85 × 93.45 × days, 2)` immediately; in particular for
`days = 7, miles = 200` and any receipts the result is `556.03`,
independent of receipts. -/
theorem claim_C2_anti_vacation :
    (∀ (inputHash : ℤ → ℚ → ℚ → ℤ) (days : ℤ) (miles receipts : ℚ),
        7 ≤ days → miles / (days : ℚ) < 50 →
        calculate_reimbursement inputHash days miles receipts
          = Except.ok (round2 (0.85 * (BASE_PER_DIEM * days))))
    ∧ (∀ (inputHash : ℤ → ℚ → ℚ → ℤ) (receipts : ℚ),
        calculate_reimbursement inputHash 7 200 receipts = Except.ok 556.03) := by
  constructor
  · exact calc_shortcircuit
  · intro inputHash receipts
    rw [calc_shortcircuit inputHash 7 200 receipts (by norm_num) (by norm_num),
      round2_556]

theorem claim_C2_witness :
    (7:ℤ) ≤ 8 ∧ (100:ℚ) / ((8:ℤ) : ℚ) < 50 ∧
    calculate_reimbursement (fun _ _ _ => 0) 8 100 0
      = Except.ok (round2 (0.85 * (BASE_PER_DIEM * ((8:ℤ) : ℚ)))) :=
  ⟨by norm_num, by norm_num,
    claim_C2_anti_vacation.1 (fun _ _ _ => 0) 8 100 0 (by norm_num) (by norm_num)⟩

/-- Claim C3: the spec asserts the only possible failure is input
validation and that division by zero is impossible because `days ≥ 1` is
enforced.  The code refutes it: nothing is enforced, and at
`days = 0, miles = 0, receipts = 0` the division `miles/days` raises
`ZeroDivisionError`. -/
theorem claim_C3_zero_division (inputHash : ℤ → ℚ → ℚ → ℤ) :
    calculate_reimbursement inputHash 0 0 0
      = Except.error PyErr.zeroDivisionError := by
  unfold calculate_reimbursement
  rw [if_neg (by rintro ⟨h7, -⟩; omega), if_pos rfl]

/-- Claim C4: for inputs reaching the mileage step with `miles ≥ 0`, the
mileage component is `0.55 × min(miles, 150) + 0.42 × max(miles − 150, 0)`;
at `miles = 200` it equals `103.5`. -/
theorem claim_C4_mileage_tiering :
    (∀ m : ℚ, 0 ≤ m →
        mileageOf m = 0.55 * min m 150 + 0.42 * max (m - 150) 0)
    ∧ mileageOf 200 = 103.5 := by
  constructor
  · exact mileage_closed
  · rw [mileage_closed 200 (by norm_num), min_eq_right (by norm_num),
      max_eq_left (by norm_num)]
    norm_num

theorem claim_C4_witness :
    (0:ℚ) ≤ 37 ∧
    mileageOf 37 = 0.55 * min (37:ℚ) 150 + 0.42 * max ((37:ℚ) - 150) 0 :=
  ⟨by norm_num, claim_C4_mileage_tiering.1 37 (by norm_num)⟩

/-- Claim C5: the per-diem component is `93.45 × days`, multiplied
additionally by `1.17` exactly when `days = 5`. -/
theorem claim_C5_per_diem (days : ℤ) :
    perDiemOf days = 93.45 * (days : ℚ) * (if days = 5 then 1.17 else 1) := by
  simp only [perDiemOf, BASE_PER_DIEM]
  split_ifs <;> ring

/-- Claim C6: the seed `hash % 1000 / 1000` lies in `[0, 1)`, the
randomization `0.88 + seed × 0.08` lies in `[0.88, 0.96)`, and on the main
path the pre-quirk result equals `base × randomization`. -/
theorem claim_C6_randomization :
    (∀ h : ℤ, 0 ≤ randSeedOf h ∧ randSeedOf h < 1
      ∧ 0.88 ≤ randomizationOf h ∧ randomizationOf h < 0.96)
    ∧ (∀ (inputHash : ℤ → ℚ → ℚ → ℤ) (days : ℤ) (miles receipts : ℚ),
        ¬(7 ≤ days ∧ miles / (days : ℚ) < 50) → days ≠ 0 →
        calculate_reimbursement inputHash days miles receipts
          = Except.ok (round2 (quirkAdjust
              (baseOf days miles receipts
                * randomizationOf (inputHash days miles receipts))))) := by
  constructor
  · intro h
    obtain ⟨s0, s1⟩ := randSeed_bounds h
    unfold randomizationOf
    refine ⟨s0, s1, by linarith, by linarith⟩
  · exact calc_unfold

theorem claim_C6_witness :
    ¬((7:ℤ) ≤ 1 ∧ (0:ℚ) / ((1:ℤ) : ℚ) < 50) ∧ (1:ℤ) ≠ 0 ∧
    calculate_reimbursement (fun _ _ _ => 0) 1 0 0
      = Except.ok (round2 (quirkAdjust (baseOf 1 0 0 * randomizationOf 0))) :=
  ⟨by norm_num, by norm_num,
    claim_C6_randomization.2 (fun _ _ _ => 0) 1 0 0 (by norm_num) (by norm_num)⟩

/-- Claim C7: on the rounding-quirk step, with `cents` the fractional part
of `final`, a bonus of `0.11` is added exactly when `cents` is strictly
within `0.01` of `0.49` or of `0.99`, and the returned value is `final`
rounded to two decimals. -/
theorem claim_C7_rounding_quirk :
    (∀ f : ℚ,
        ((|f - (⌊f⌋ : ℚ) - 0.49| < 0.01 ∨ |f - (⌊f⌋ : ℚ) - 0.99| < 0.01) →
          quirkAdjust f = f + 0.11)
        ∧ (¬(|f - (⌊f⌋ : ℚ) - 0.49| < 0.01 ∨ |f - (⌊f⌋ : ℚ) - 0.99| < 0.01) →
          quirkAdjust f = f))
    ∧ (∀ (inputHash : ℤ → ℚ → ℚ → ℤ) (days : ℤ) (miles receipts : ℚ),
        ¬(7 ≤ days ∧ miles / (days : ℚ) < 50) → days ≠ 0 →
        calculate_reimbursement inputHash days miles receipts
          = Except.ok (round2 (quirkAdjust
              (baseOf days miles receipts
                * randomizationOf (inputHash days miles receipts))))) := by
  constructor
  · intro f
    constructor
    · intro hc
      simp only [quirkAdjust, ROUNDING_BUG_BONUS]
      rw [if_pos hc]
    · intro hc
      simp only [quirkAdjust]
      rw [if_neg hc]
  · exact calc_unfold

theorem claim_C7_witness :
    (|(0.49:ℚ) - (⌊(0.49:ℚ)⌋ : ℚ) - 0.49| < 0.01
      ∨ |(0.49:ℚ) - (⌊(0.49:ℚ)⌋ : ℚ) - 0.99| < 0.01)
    ∧ quirkAdjust 0.49 = 0.49 + 0.11 :=
  ⟨by norm_num, (claim_C7_rounding_quirk.1 0.49).1 (by norm_num)⟩

/-- Claim C8: the calculator is deterministic: two calls with equal inputs
(and the same per-process hash function) return equal results. -/
theorem claim_C8_deterministic (inputHash : ℤ → ℚ → ℚ → ℤ)
    (days days' : ℤ) (miles receipts miles' receipts' : ℚ)
    (hd : days = days') (hm : miles = miles') (hr : receipts = receipts') :
    calculate_reimbursement inputHash days miles receipts
      = calculate_reimbursement inputHash days' miles' receipts' := by
  rw [hd, hm, hr]

theorem claim_C8_witness :
    calculate_reimbursement (fun _ _ _ => 0) 5 200 500
      = calculate_reimbursement (fun _ _ _ => 0) 5 200 500 :=
  claim_C8_deterministic (fun _ _ _ => 0) 5 5 200 500 200 500 rfl rfl rfl

/-- Claim C9: the mileage component is monotone in miles on `[0, ∞)`, with
marginal rate `0.55` per mile up to 150 miles and `0.42` beyond. -/
theorem claim_C9_mileage_monotone :
    (∀ m1 m2 : ℚ, 0 ≤ m1 → m1 ≤ m2 → mileageOf m1 ≤ mileageOf m2)
    ∧ (∀ m d : ℚ, 0 ≤ m → 0 ≤ d → m + d ≤ 150 →
        mileageOf (m + d) - mileageOf m = 0.55 * d)
    ∧ (∀ m d : ℚ, 150 ≤ m → 0 ≤ d →
        mileageOf (m + d) - mileageOf m = 0.42 * d) := by
  refine ⟨?_, ?_, ?_⟩
  · intro m1 m2 h0 h12
    rw [mileage_closed m1 h0, mileage_closed m2 (le_trans h0 h12)]
    have hmin : min m1 150 ≤ min m2 150 := min_le_min h12 le_rfl
    have hmax : max (m1 - 150) 0 ≤ max (m2 - 150) 0 :=
      max_le_max (by linarith) le_rfl
    linarith
  · intro m d hm hd hsum
    rw [mileage_closed m hm, mileage_closed (m + d) (by linarith)]
    rw [min_eq_left (by linarith), min_eq_left (by linarith)]
    rw [max_eq_right (by linarith), max_eq_right (by linarith)]
    ring
  · intro m d hm hd
    rw [mileage_closed m (by linarith), mileage_closed (m + d) (by linarith)]
    rw [min_eq_right (by linarith), min_eq_right (by linarith)]
    rw [max_eq_left (by linarith), max_eq_left (by linarith)]
    ring

theorem claim_C9_witness :
    (0:ℚ) ≤ 10 ∧ (10:ℚ) ≤ 300 ∧ mileageOf 10 ≤ mileageOf 300 :=
  ⟨by norm_num, by norm_num,
    claim_C9_mileage_monotone.1 10 300 (by norm_num) (by norm_num)⟩

/-- Claim C10 (implicit): for any integer `days ≥ 1` and arbitrary (even
negative) miles and receipts, the call succeeds; for negative miles the
tier loop exits at once so the mileage component is 0, and for negative
receipts the daily spend falls in the below-40 branch so the spend
multiplier is 0.88. -/
theorem claim_C10_total_on_valid_days (inputHash : ℤ → ℚ → ℚ → ℤ)
    (days : ℤ) (miles receipts : ℚ) (hd : 1 ≤ days) :
    (∃ v, calculate_reimbursement inputHash days miles receipts = Except.ok v)
    ∧ (miles < 0 → mileageOf miles = 0)
    ∧ (receipts < 0 → spendMultOf days receipts = 0.88) := by
  refine ⟨?_, ?_, ?_⟩
  · by_cases hsc : 7 ≤ days ∧ miles / (days : ℚ) < 50
    · exact ⟨_, calc_shortcircuit inputHash days miles receipts hsc.1 hsc.2⟩
    · exact ⟨_, calc_unfold inputHash days miles receipts hsc (by omega)⟩
  · intro hm
    simp only [mileageOf, MILEAGE_RATES, mileageLoop]
    rw [if_pos (le_of_lt hm)]
  · intro hr
    have hdq : (0 : ℚ) < (days : ℚ) := by
      exact_mod_cast (by omega : (0:ℤ) < days)
    have hds : dailySpendOf days receipts < 0 := by
      unfold dailySpendOf
      rw [if_pos (by omega : (0:ℤ) < days)]
      exact div_neg_of_neg_of_pos hr hdq
    simp only [spendMultOf]
    rw [if_neg (by rintro ⟨h75, -⟩; linarith), if_pos (by linarith)]

theorem claim_C10_witness :
    (1:ℤ) ≤ 1 ∧
    ((∃ v, calculate_reimbursement (fun _ _ _ => 0) 1 (-5) (-3) = Except.ok v)
      ∧ ((-5:ℚ) < 0 → mileageOf (-5) = 0)
      ∧ ((-3:ℚ) < 0 → spendMultOf 1 (-3) = 0.88)) :=
  ⟨le_refl 1, claim_C10_total_on_valid_days (fun _ _ _ => 0) 1 (-5) (-3) (le_refl 1)⟩
